import Mathlib

/-!
# Verification of the 0x match-orders core

Shallow embedding of `MixinMatchOrders.sol`
(`src/packages/contracts/src/contracts/current/protocol/Exchange/MixinMatchOrders.sol`)
and of `ZeroEx.signOrderHashAsync` (`src/unnamed/part_000`), together with
theorems settling the frozen claims about them.

Machine integers are embedded as `Nat`; the EVM's unchecked 256-bit
multiplication wraps, which is made explicit with `% 2 ^ 256` exactly where the
Solidity source multiplies without SafeMath.  Collaborators of the matching
core that are not part of the excerpted source (`getFillAmounts`,
`getPartialAmount`, `getOrderStatus`, SafeMath, settlement and the
filled-state ledger) are modelled from the specification; each such
definition is marked `Modelled from the spec:` in its doc comment.
-/

namespace ZeroExMatch

/-- The modulus of the EVM's 256-bit word: unchecked `uint256` arithmetic in
Solidity 0.4 wraps modulo this value. -/
def WORD : Nat := 2 ^ 256

/-- Solidity's unchecked `uint256` multiplication (`a * b` without SafeMath):
the mathematical product reduced modulo `2 ^ 256`. -/
def mul256 (a b : Nat) : Nat := (a * b) % WORD

/-- Status codes communicated between the matching core and its
collaborators, mirroring the `LibStatus` codes used by the source
(`Status.SUCCESS`, `Status.ORDER_FILLABLE`) plus the failure conditions the
spec assigns to the fill-amount calculator (non-positive fill, overflow). -/
inductive Status where
  | SUCCESS
  | ORDER_FILLABLE
  | ORDER_INVALID
  | ORDER_EXPIRED
  | ORDER_CANCELLED
  | ORDER_FULLY_FILLED
  | FILL_AMOUNT_ZERO
  | MUL_OVERFLOW
deriving DecidableEq, Repr

/-- The `Order` value object (spec §3): maker identity, the maker/taker token
pair with amounts, fees, salt and expiration.  Addresses and hashes are
embedded as `Nat`.  The field names follow the Solidity source
(`makerTokenAddress`, `takerTokenAmount`, ...). -/
structure Order where
  makerAddress : Nat
  makerTokenAddress : Nat
  takerTokenAddress : Nat
  makerTokenAmount : Nat
  takerTokenAmount : Nat
  makerFee : Nat
  takerFee : Nat
  feeRecipient : Nat
  salt : Nat
  expiration : Nat
deriving DecidableEq, Repr

/-- The `MatchedOrderFillAmounts` struct of the source: for each matched
order the maker/taker amounts filled and the fees paid. -/
structure MatchedOrderFillAmounts where
  leftMakerTokenFilledAmount : Nat := 0
  leftTakerTokenFilledAmount : Nat := 0
  leftMakerFeeAmountPaid : Nat := 0
  leftTakerFeeAmountPaid : Nat := 0
  rightMakerTokenFilledAmount : Nat := 0
  rightTakerTokenFilledAmount : Nat := 0
  rightMakerFeeAmountPaid : Nat := 0
  rightTakerFeeAmountPaid : Nat := 0
deriving DecidableEq, Repr

/-- Reasons for a hard revert (Solidity `require`/`assert`/SafeMath failure):
the whole transaction aborts with no observable effect. -/
inductive Revert where
  | safeSubUnderflow
  | safeMathRevert
  | assertFailed
  | requireFailed
  | ledgerOverfill
deriving DecidableEq, Repr

/-- Modelled from the spec: SafeMath subtraction (`SafeMath.sol` is not in
`src/`).  Per the spec's `ArithmeticOverflow` taxonomy (§7) an underflow is a
fatal revert, never a wrap; `none` models the revert. -/
def safeSub (a b : Nat) : Option Nat :=
  if b ≤ a then some (a - b) else none

/-- Modelled from the spec: `getPartialAmount` (`LibPartialAmount` is not in
`src/`).  Spec §4.3: the exact proportional amount
`numerator × target / denominator`, truncating toward zero; any intermediate
multiplication that would overflow the fixed-width domain is a fatal
computation error (`none`), as is a zero denominator. -/
def getPartialAmount (numerator denominator target : Nat) : Option Nat :=
  if denominator = 0 ∨ WORD ≤ numerator * target then none
  else some (numerator * target / denominator)

/-- Result record for the fill computation of a single order, mirroring the
tuple `(status, makerTokenFilledAmount, takerTokenFilledAmount,
makerFeeAmountPaid, takerFeeAmountPaid)` returned by `getFillAmounts` in the
source. -/
structure FillResult where
  status : Status
  makerTokenFilledAmount : Nat := 0
  takerTokenFilledAmount : Nat := 0
  makerFeeAmountPaid : Nat := 0
  takerFeeAmountPaid : Nat := 0
deriving DecidableEq, Repr

/-- Modelled from the spec: `getFillAmounts` (`MixinExchangeCore` is not in
`src/`).  Spec §4.3: the requested taker-fill amount is consumed in full
("fill ... maximally using `...Remaining` as the taker-fill request"); the
maker amount is the exact proportional amount
`order.makerTokenAmount × fill / order.takerTokenAmount` truncated toward
zero; the fee amounts are `fee × amountFilled / order.nominalTakerAmount`
truncated toward zero; a non-positive computed fill amount is a fatal error
and any multiplication overflowing the 256-bit domain is a fatal error, both
reported as a non-`SUCCESS` status with zeroed amounts.  The source call
sites pass a third `takerTokenFillAmount` argument to which the spec assigns
no role (the only caller of `getMatchedFillAmounts` supplies no such value),
so it is omitted here. -/
def getFillAmounts (order : Order) (fillRequest : Nat) : FillResult :=
  if order.takerTokenAmount = 0 then { status := Status.ORDER_INVALID }
  else if fillRequest = 0 then { status := Status.FILL_AMOUNT_ZERO }
  else if WORD ≤ order.makerTokenAmount * fillRequest ∨
          WORD ≤ order.makerFee * fillRequest ∨
          WORD ≤ order.takerFee * fillRequest then
    { status := Status.MUL_OVERFLOW }
  else
    let makerTokenFilledAmount := order.makerTokenAmount * fillRequest / order.takerTokenAmount
    if makerTokenFilledAmount = 0 then { status := Status.FILL_AMOUNT_ZERO }
    else
      { status := Status.SUCCESS
        makerTokenFilledAmount := makerTokenFilledAmount
        takerTokenFilledAmount := fillRequest
        makerFeeAmountPaid := order.makerFee * fillRequest / order.takerTokenAmount
        takerFeeAmountPaid := order.takerFee * fillRequest / order.takerTokenAmount }

/-- The branch condition of `getMatchedFillAmounts` (source lines 56-58):
`right.makerTokenAmount * rightRemaining < right.takerTokenAmount *
leftRemaining` decides that the left order's remaining capacity is the
binding constraint.  The source multiplies without SafeMath (its own
`TODO: SafeMath` comment), so both products wrap modulo `2 ^ 256`. -/
def leftIsConstraint (right : Order) (leftRemaining rightRemaining : Nat) : Bool :=
  mul256 right.makerTokenAmount rightRemaining <
    mul256 right.takerTokenAmount leftRemaining

/-- The left-constrained branch of `getMatchedFillAmounts` (source lines
59-102): fill the left order with `leftRemaining`; on success derive the
right fill via `getPartialAmount(right.makerTokenAmount,
right.takerTokenAmount, leftMakerTokenFilledAmount)` and fill the right order
with it; the source's `assert` demands
`rightMakerTokenFilledAmount ≥ leftTakerTokenFilledAmount`.  A non-`SUCCESS`
status from either fill is returned early together with the partially
assigned struct (unassigned fields hold Solidity's zero default). -/
def matchLeftConstrained (left right : Order) (leftRemaining : Nat) :
    Except Revert (Status × MatchedOrderFillAmounts) :=
  let fl := getFillAmounts left leftRemaining
  if fl.status ≠ Status.SUCCESS then
    .ok (fl.status,
      { leftMakerTokenFilledAmount := fl.makerTokenFilledAmount
        leftTakerTokenFilledAmount := fl.takerTokenFilledAmount
        leftMakerFeeAmountPaid := fl.makerFeeAmountPaid
        leftTakerFeeAmountPaid := fl.takerFeeAmountPaid })
  else
    match getPartialAmount right.makerTokenAmount right.takerTokenAmount
        fl.makerTokenFilledAmount with
    | none => .error Revert.safeMathRevert
    | some rightFill =>
      let fr := getFillAmounts right rightFill
      let m : MatchedOrderFillAmounts :=
        { leftMakerTokenFilledAmount := fl.makerTokenFilledAmount
          leftTakerTokenFilledAmount := fl.takerTokenFilledAmount
          leftMakerFeeAmountPaid := fl.makerFeeAmountPaid
          leftTakerFeeAmountPaid := fl.takerFeeAmountPaid
          rightMakerTokenFilledAmount := fr.makerTokenFilledAmount
          rightTakerTokenFilledAmount := fr.takerTokenFilledAmount
          rightMakerFeeAmountPaid := fr.makerFeeAmountPaid
          rightTakerFeeAmountPaid := fr.takerFeeAmountPaid }
      if fr.status ≠ Status.SUCCESS then .ok (fr.status, m)
      else if m.leftTakerTokenFilledAmount ≤ m.rightMakerTokenFilledAmount then
        .ok (Status.SUCCESS, m)
      else .error Revert.assertFailed

/-- The right-constrained branch of `getMatchedFillAmounts` (source lines
104-140): fill the right order with `rightRemaining`; the source's first
`assert` demands `rightMakerTokenFilledAmount ≤ leftRemaining` (its
`remaingLeft` identifier can only denote `leftRemaining`); then fill the left
order with exactly `rightMakerTokenFilledAmount`; the final `assert` demands
`rightMakerTokenFilledAmount == leftTakerTokenFilledAmount`. -/
def matchRightConstrained (left right : Order) (leftRemaining rightRemaining : Nat) :
    Except Revert (Status × MatchedOrderFillAmounts) :=
  let fr := getFillAmounts right rightRemaining
  if fr.status ≠ Status.SUCCESS then
    .ok (fr.status,
      { rightMakerTokenFilledAmount := fr.makerTokenFilledAmount
        rightTakerTokenFilledAmount := fr.takerTokenFilledAmount
        rightMakerFeeAmountPaid := fr.makerFeeAmountPaid
        rightTakerFeeAmountPaid := fr.takerFeeAmountPaid })
  else if ¬ fr.makerTokenFilledAmount ≤ leftRemaining then .error Revert.assertFailed
  else
    let fl := getFillAmounts left fr.makerTokenFilledAmount
    let m : MatchedOrderFillAmounts :=
      { leftMakerTokenFilledAmount := fl.makerTokenFilledAmount
        leftTakerTokenFilledAmount := fl.takerTokenFilledAmount
        leftMakerFeeAmountPaid := fl.makerFeeAmountPaid
        leftTakerFeeAmountPaid := fl.takerFeeAmountPaid
        rightMakerTokenFilledAmount := fr.makerTokenFilledAmount
        rightTakerTokenFilledAmount := fr.takerTokenFilledAmount
        rightMakerFeeAmountPaid := fr.makerFeeAmountPaid
        rightTakerFeeAmountPaid := fr.takerFeeAmountPaid }
    if fl.status ≠ Status.SUCCESS then .ok (fl.status, m)
    else if m.rightMakerTokenFilledAmount = m.leftTakerTokenFilledAmount then
      .ok (Status.SUCCESS, m)
    else .error Revert.assertFailed

/-- `getMatchedFillAmounts` (source lines 42-141): compute the two remaining
capacities with SafeMath subtraction, pick the binding side by the (wrapping)
cross-product comparison, and run the corresponding branch. -/
def getMatchedFillAmounts (left right : Order) (leftFilledAmount rightFilledAmount : Nat) :
    Except Revert (Status × MatchedOrderFillAmounts) :=
  match safeSub left.takerTokenAmount leftFilledAmount with
  | none => .error Revert.safeSubUnderflow
  | some leftRemaining =>
    match safeSub right.takerTokenAmount rightFilledAmount with
    | none => .error Revert.safeSubUnderflow
    | some rightRemaining =>
      if leftIsConstraint right leftRemaining rightRemaining then
        matchLeftConstrained left right leftRemaining
      else
        matchRightConstrained left right leftRemaining rightRemaining

/-- The environment the match orchestrator runs in: the external collaborators
of spec §6 (order hashing, signature verification, the cancellation registry,
the clock) plus the filled-state ledger (hash ↦ cumulative filled
taker-amount, implicitly zero on first reference) and the transaction
sender. -/
structure Env where
  hash : Order → Nat
  sigValid : Nat → Nat → Nat → Bool
  cancelled : Nat → Bool
  now : Nat
  filled : Nat → Nat
  sender : Nat

/-- Modelled from the spec: the Order Status Resolver (`getOrderStatus` of
`MixinExchangeCore`, not in `src/`).  Spec §4.2, evaluated in order:
invalid signature or degenerate (zero-amount) fields → Invalid; expired →
Expired; cancelled → Cancelled; `filledAmount ≥ order.takerAmount` →
FullyFilled; otherwise Fillable. -/
def resolveStatus (env : Env) (order : Order) (signature : Nat) : Status :=
  let h := env.hash order
  if ¬ env.sigValid h signature order.makerAddress ∨
      order.makerTokenAmount = 0 ∨ order.takerTokenAmount = 0 then
    Status.ORDER_INVALID
  else if order.expiration ≤ env.now then Status.ORDER_EXPIRED
  else if env.cancelled h then Status.ORDER_CANCELLED
  else if order.takerTokenAmount ≤ env.filled h then Status.ORDER_FULLY_FILLED
  else Status.ORDER_FILLABLE

/-- Modelled from the spec: `getOrderStatus` returns the order hash, the
resolved status and the ledger's cumulative filled amount for that hash,
mirroring the source's `(orderHash, status, filledAmount)` tuple. -/
def getOrderStatus (env : Env) (order : Order) (signature : Nat) : Nat × Status × Nat :=
  (env.hash order, resolveStatus env order signature, env.filled (env.hash order))

/-- `validateMatchOrdersContextOrRevert` (source lines 27-39), exactly as
written: the first two `require`s compare the left order's token *addresses*
against the right order's token *amounts*
(`left.makerTokenAddress == right.takerTokenAmount` and
`left.takerTokenAddress == right.makerTokenAmount`), and the third `require`
compares the unchecked (wrapping) cross-rate products.  Returns `true` when
every `require` passes. -/
def validateMatchOrdersContextOrRevert (left right : Order) : Bool :=
  (left.makerTokenAddress == right.takerTokenAmount) &&
  (left.takerTokenAddress == right.makerTokenAmount) &&
  (mul256 left.takerTokenAmount right.takerTokenAmount ≤
    mul256 left.makerTokenAmount right.makerTokenAmount)

/-- One `updateFilledState` call as issued by `matchOrders`: the order, the
hash the ledger entry is keyed by, and the four amounts. -/
structure LedgerUpdate where
  order : Order
  orderHash : Nat
  makerTokenFilledAmount : Nat
  takerTokenFilledAmount : Nat
  makerFeeAmountPaid : Nat
  takerFeeAmountPaid : Nat
deriving DecidableEq, Repr

/-- Outcome of the settlement collaborator for the rounding residual.
`residualAmount` is the right maker-asset released beyond the left
taker-asset consumed. -/
structure SettlementOutcome where
  residualAmount : Nat
  residualRecipient : Nat
  residualKeptByTaker : Nat
deriving DecidableEq, Repr

/-- Modelled from the spec: `settleMatchedOrders` (`MSettlement`, not in
`src/`).  Per spec §4.3.6 and the source's own header comment ("Any
right.makerToken that taker would gain because of rounding are transfered to
right"), the rounding residual is transferred to the maker side and none of
it is kept by the taker. -/
def settleMatchedOrders (left right : Order) (m : MatchedOrderFillAmounts)
    (takerAddress : Nat) : SettlementOutcome :=
  { residualAmount := m.rightMakerTokenFilledAmount - m.leftTakerTokenFilledAmount
    residualRecipient := right.makerAddress
    residualKeptByTaker := 0 }

/-- Modelled from the spec: the Filled-State Ledger's `recordFill`
(spec §4.4), as invoked by `updateFilledState`: asserts
`getFilled(hash) + delta ≤ order.takerAmount` before committing; over-fill is
a fatal invariant violation (`false`), never clamped. -/
def recordFillOk (filledAtHash delta takerTokenAmount : Nat) : Bool :=
  filledAtHash + delta ≤ takerTokenAmount

/-- Result of a `matchOrders` call.  `rejected` models the source's
emit-and-return-0 path on a non-fillable status; `reverted` models a
`require`/`assert`/SafeMath abort (no observable effect); `matched` records
the settlement request (`settledAmounts`, `takerAddress`), both
`updateFilledState` calls in order, and the function's
`(leftFilledAmount, rightFilledAmount)` return values. -/
inductive MatchResult where
  | rejected (status : Status) (emittedOrderHash : Nat)
  | reverted (r : Revert)
  | matched (settledAmounts : MatchedOrderFillAmounts) (takerAddress : Nat)
      (leftUpdate rightUpdate : LedgerUpdate) (returns : Nat × Nat)
deriving DecidableEq, Repr

/-- `matchOrders` (source lines 147-210), embedded exactly as written:

* the first status query is `getOrderStatus(left, leftSignature)`;
* the *second* status query — under the source's `// Get right status`
  comment — is again `getOrderStatus(left, leftSignature)`, assigning the
  hash to `leftOrderHash` and the filled amount to `rightFilledAmount`;
  the declared `rightOrderHash` is never assigned and keeps Solidity's
  all-zero default;
* the context is validated (or the call reverts);
* `getMatchedFillAmounts` is invoked, and its returned status is **not**
  inspected: settlement and both ledger updates follow unconditionally,
  the right one keyed by the all-zero `rightOrderHash`.

The two ledger-update asserts are the spec-modelled `recordFill` guard
applied in sequence (the right update sees the ledger after the left one,
though their keys differ unless `env.hash left = 0`). -/
def matchOrders (env : Env) (left right : Order) (leftSignature rightSignature : Nat) :
    MatchResult :=
  let q1 := getOrderStatus env left leftSignature
  let leftOrderHash := q1.1
  let leftFilledAmount := q1.2.2
  if q1.2.1 ≠ Status.ORDER_FILLABLE then .rejected q1.2.1 leftOrderHash
  else
    let q2 := getOrderStatus env left leftSignature
    let leftOrderHash2 := q2.1
    let rightFilledAmount := q2.2.2
    let rightOrderHash : Nat := 0
    if q2.2.1 ≠ Status.ORDER_FILLABLE then .rejected q2.2.1 leftOrderHash2
    else
      let takerAddress := env.sender
      if ¬ validateMatchOrdersContextOrRevert left right then
        .reverted Revert.requireFailed
      else
        match getMatchedFillAmounts left right leftFilledAmount rightFilledAmount with
        | .error r => .reverted r
        | .ok (_calculatorStatus, m) =>
          let leftUpdate : LedgerUpdate :=
            { order := left
              orderHash := leftOrderHash2
              makerTokenFilledAmount := m.leftMakerTokenFilledAmount
              takerTokenFilledAmount := m.leftTakerTokenFilledAmount
              makerFeeAmountPaid := m.leftMakerFeeAmountPaid
              takerFeeAmountPaid := m.leftTakerFeeAmountPaid }
          let rightUpdate : LedgerUpdate :=
            { order := right
              orderHash := rightOrderHash
              makerTokenFilledAmount := m.rightMakerTokenFilledAmount
              takerTokenFilledAmount := m.rightTakerTokenFilledAmount
              makerFeeAmountPaid := m.rightMakerFeeAmountPaid
              takerFeeAmountPaid := m.rightTakerFeeAmountPaid }
          if ¬ recordFillOk (env.filled leftOrderHash2) m.leftTakerTokenFilledAmount
              left.takerTokenAmount then
            .reverted Revert.ledgerOverfill
          else
            let filledAfterLeft : Nat :=
              (if rightOrderHash = leftOrderHash2 then
                env.filled leftOrderHash2 + m.leftTakerTokenFilledAmount
              else env.filled rightOrderHash)
            if ¬ recordFillOk filledAfterLeft m.rightTakerTokenFilledAmount
                right.takerTokenAmount then
              .reverted Revert.ledgerOverfill
            else
              .matched m takerAddress leftUpdate rightUpdate
                (leftFilledAmount, rightFilledAmount)

/-- An elliptic-curve signature as the triple `(v, r, s)` of a one-byte
recovery identifier and two curve coordinates (spec §3). -/
structure ECSignature where
  v : Nat
  r : Nat
  s : Nat
deriving DecidableEq, Repr

/-- The error thrown by `signOrderHashAsync` when no parsing of the raw
signature validates. -/
inductive ZeroExError where
  | InvalidSignature
deriving DecidableEq, Repr

/-- The `validVParamValues` list of `signOrderHashAsync`
(`src/unnamed/part_000` line 267). -/
def validVParamValues : List Nat := [27, 28]

/-- `ZeroEx.signOrderHashAsync` (`src/unnamed/part_000` lines 246-285),
embedded from the point where the raw signature hex has been obtained from
the signer.  The raw signature and the hashes/addresses are `Nat`s; the two
parsers (`signatureUtils.parseSignatureHexAsVRS` / `...AsRSV`) and
`ZeroEx.isValidSignature` are collaborators outside `src/` and are taken as
function parameters.  As in the source, the v-r-s parsing is tried first: if
its `v` is in `validVParamValues` and `isValidSignature(orderHash, sig,
signerAddress)` holds it is returned; otherwise the r-s-v parsing is tried
the same way; otherwise `ZeroExError.InvalidSignature` is thrown. -/
def signOrderHashAsync (parseSignatureHexAsVRS parseSignatureHexAsRSV : Nat → ECSignature)
    (isValidSignature : Nat → ECSignature → Nat → Bool)
    (orderHash signerAddress rawSignature : Nat) : Except ZeroExError ECSignature :=
  let ecSignatureVRS := parseSignatureHexAsVRS rawSignature
  if validVParamValues.contains ecSignatureVRS.v &&
      isValidSignature orderHash ecSignatureVRS signerAddress then
    .ok ecSignatureVRS
  else
    let ecSignatureRSV := parseSignatureHexAsRSV rawSignature
    if validVParamValues.contains ecSignatureRSV.v &&
        isValidSignature orderHash ecSignatureRSV signerAddress then
      .ok ecSignatureRSV
    else .error ZeroExError.InvalidSignature

/-! ## Helper lemmas -/

/-- On a `SUCCESS` status, `getFillAmounts` consumed the requested fill in
full and computed the maker amount and both fees as truncated proportional
amounts. -/
lemma getFillAmounts_success (order : Order) (fill : Nat)
    (h : (getFillAmounts order fill).status = Status.SUCCESS) :
    getFillAmounts order fill =
      { status := Status.SUCCESS
        makerTokenFilledAmount := order.makerTokenAmount * fill / order.takerTokenAmount
        takerTokenFilledAmount := fill
        makerFeeAmountPaid := order.makerFee * fill / order.takerTokenAmount
        takerFeeAmountPaid := order.takerFee * fill / order.takerTokenAmount } := by
  simp only [getFillAmounts] at h ⊢
  split_ifs at h ⊢
  all_goals simp_all

/-- A non-reverting `getPartialAmount` is the truncated proportional
amount. -/
lemma getPartialAmount_some {n d t v : Nat} (h : getPartialAmount n d t = some v) :
    v = n * t / d := by
  simp only [getPartialAmount] at h
  split_ifs at h
  exact (Option.some.inj h).symm

/-- With both SafeMath subtractions succeeding, `getMatchedFillAmounts` is
the branch selected by the (wrapping) cross-product comparison. -/
lemma getMatchedFillAmounts_eq (left right : Order) {lF rF L R : Nat}
    (hL : safeSub left.takerTokenAmount lF = some L)
    (hR : safeSub right.takerTokenAmount rF = some R) :
    getMatchedFillAmounts left right lF rF =
      if leftIsConstraint right L R then matchLeftConstrained left right L
      else matchRightConstrained left right L R := by
  unfold getMatchedFillAmounts
  rw [hL, hR]

/-- Characterization of a successful left-constrained branch: the left order
is filled with `leftRemaining` as the taker-fill request, the right fill
request is the truncated proportional amount derived from the left maker
amount, the right order is filled with it, and the source's `assert`
guarantees the right maker amount covers the left taker amount. -/
lemma matchLeftConstrained_success (left right : Order) (L : Nat)
    (m : MatchedOrderFillAmounts)
    (hok : matchLeftConstrained left right L = .ok (Status.SUCCESS, m)) :
    m.leftTakerTokenFilledAmount = L ∧
    m.leftMakerTokenFilledAmount = left.makerTokenAmount * L / left.takerTokenAmount ∧
    m.rightTakerTokenFilledAmount =
      right.makerTokenAmount * m.leftMakerTokenFilledAmount / right.takerTokenAmount ∧
    m.rightMakerTokenFilledAmount =
      right.makerTokenAmount * m.rightTakerTokenFilledAmount / right.takerTokenAmount ∧
    m.leftTakerTokenFilledAmount ≤ m.rightMakerTokenFilledAmount := by
  simp only [matchLeftConstrained] at hok
  split at hok
  · rename_i h1
    simp only [Except.ok.injEq, Prod.mk.injEq] at hok
    exact absurd hok.1 h1
  · rename_i h1
    have hs1 : (getFillAmounts left L).status = Status.SUCCESS := not_not.mp h1
    split at hok
    · exact absurd hok (by simp)
    · rename_i rightFill heq
      split at hok
      · rename_i h2
        simp only [Except.ok.injEq, Prod.mk.injEq] at hok
        exact absurd hok.1 h2
      · rename_i h2
        have hs2 : (getFillAmounts right rightFill).status = Status.SUCCESS := not_not.mp h2
        split at hok
        · rename_i h3
          simp only [Except.ok.injEq, Prod.mk.injEq, true_and] at hok
          subst hok
          have hfill : rightFill =
              right.makerTokenAmount *
                (getFillAmounts left L).makerTokenFilledAmount / right.takerTokenAmount :=
            getPartialAmount_some heq
          rw [getFillAmounts_success left L hs1, getFillAmounts_success right rightFill hs2]
          refine ⟨rfl, rfl, ?_, rfl, ?_⟩
          · rw [hfill, getFillAmounts_success left L hs1]
          · have h4 := h3
            rw [getFillAmounts_success left L hs1,
              getFillAmounts_success right rightFill hs2] at h4
            exact h4
        · exact absurd hok (by simp)

/-- Characterization of a successful right-constrained branch: the right
order is filled with `rightRemaining` as the fill request, the left order is
filled with exactly the right maker amount, and the source's first `assert`
guarantees the right maker amount is within `leftRemaining`. -/
lemma matchRightConstrained_success (left right : Order) (L R : Nat)
    (m : MatchedOrderFillAmounts)
    (hok : matchRightConstrained left right L R = .ok (Status.SUCCESS, m)) :
    m.rightTakerTokenFilledAmount = R ∧
    m.rightMakerTokenFilledAmount =
      right.makerTokenAmount * R / right.takerTokenAmount ∧
    m.leftTakerTokenFilledAmount = m.rightMakerTokenFilledAmount ∧
    m.leftMakerTokenFilledAmount =
      left.makerTokenAmount * m.rightMakerTokenFilledAmount / left.takerTokenAmount ∧
    m.rightMakerTokenFilledAmount ≤ L := by
  simp only [matchRightConstrained] at hok
  split at hok
  · rename_i h1
    simp only [Except.ok.injEq, Prod.mk.injEq] at hok
    exact absurd hok.1 h1
  · rename_i h1
    have hs1 : (getFillAmounts right R).status = Status.SUCCESS := not_not.mp h1
    split at hok
    · exact absurd hok (by simp)
    · rename_i h2
      have hle : (getFillAmounts right R).makerTokenFilledAmount ≤ L := not_not.mp h2
      split at hok
      · rename_i h3
        simp only [Except.ok.injEq, Prod.mk.injEq] at hok
        exact absurd hok.1 h3
      · rename_i h3
        have hs2 : (getFillAmounts left
            (getFillAmounts right R).makerTokenFilledAmount).status = Status.SUCCESS :=
          not_not.mp h3
        split at hok
        · simp only [Except.ok.injEq, Prod.mk.injEq, true_and] at hok
          subst hok
          rw [getFillAmounts_success left _ hs2, getFillAmounts_success right R hs1]
          rw [getFillAmounts_success right R hs1] at hle
          exact ⟨rfl, rfl, rfl, rfl, hle⟩
        · exact absurd hok (by simp)

/-! ## Claim C1 -/

/-- Left order of the C1 counterexample: maker gives 2 of token 10 for 1 of
token 20. -/
def leftOrderC1 : Order :=
  { makerAddress := 100, makerTokenAddress := 10, takerTokenAddress := 20
    makerTokenAmount := 2, takerTokenAmount := 1
    makerFee := 0, takerFee := 0, feeRecipient := 0, salt := 1, expiration := 1000 }

/-- Right order of the C1 counterexample: maker gives 2 of token 20 for 4 of
token 10, of which 1 is already filled. -/
def rightOrderC1 : Order :=
  { makerAddress := 200, makerTokenAddress := 20, takerTokenAddress := 10
    makerTokenAmount := 2, takerTokenAmount := 4
    makerFee := 0, takerFee := 0, feeRecipient := 0, salt := 2, expiration := 1000 }

/-- Environment of the C1 counterexample: valid signatures, nothing
cancelled or expired, ledger `hash 1 ↦ 0` and `hash 2 ↦ 1`. -/
def envC1 : Env :=
  { hash := fun o => o.salt, sigValid := fun _ _ _ => true
    cancelled := fun _ => false, now := 0
    filled := fun h => if h = 2 then 1 else 0, sender := 500 }

/-- The fill amounts `getMatchedFillAmounts` computes on the C1
counterexample. -/
def amountsC1 : MatchedOrderFillAmounts :=
  { leftMakerTokenFilledAmount := 2, leftTakerTokenFilledAmount := 1
    rightMakerTokenFilledAmount := 1, rightTakerTokenFilledAmount := 3 }

/-- C1 (counterexample): both orders are Fillable, their asset pairs are
exact inverses, and the cross-rate invariant holds (`2 × 2 ≥ 1 × 4`), yet on
the successful match the right order is the binding constraint and consumes
3 units of its taker asset while the non-constrained left side releases only
2 units of the same (maker) asset: the claimed inequality fails and the
truncation residual is extracted from the taker, not retained for it. -/
theorem C1_counterexample :
    resolveStatus envC1 leftOrderC1 0 = Status.ORDER_FILLABLE ∧
    resolveStatus envC1 rightOrderC1 0 = Status.ORDER_FILLABLE ∧
    leftOrderC1.makerTokenAddress = rightOrderC1.takerTokenAddress ∧
    leftOrderC1.takerTokenAddress = rightOrderC1.makerTokenAddress ∧
    leftOrderC1.takerTokenAmount * rightOrderC1.takerTokenAmount ≤
      leftOrderC1.makerTokenAmount * rightOrderC1.makerTokenAmount ∧
    getMatchedFillAmounts leftOrderC1 rightOrderC1
        (envC1.filled (envC1.hash leftOrderC1))
        (envC1.filled (envC1.hash rightOrderC1)) =
      .ok (Status.SUCCESS, amountsC1) ∧
    amountsC1.leftMakerTokenFilledAmount < amountsC1.rightTakerTokenFilledAmount :=
  ⟨rfl, rfl, rfl, rfl, by decide, rfl, by decide⟩

/-- C1 (amended): on every successful match in which the **left** order is
the binding constraint, the maker-asset amount released by the
non-constrained right side is ≥ the taker-asset amount consumed by the
constrained left side, and the (non-negative) truncation residual is
retained by the maker and never by the taker under the spec-modelled
settlement.  (When the right order is the constraint the inequality can
fail, per the counterexample.) -/
theorem C1_left_constrained_residual (left right : Order) (lF rF L R : Nat)
    (m : MatchedOrderFillAmounts) (takerAddress : Nat)
    (hL : safeSub left.takerTokenAmount lF = some L)
    (hR : safeSub right.takerTokenAmount rF = some R)
    (hc : leftIsConstraint right L R = true)
    (hok : getMatchedFillAmounts left right lF rF = .ok (Status.SUCCESS, m)) :
    m.leftTakerTokenFilledAmount ≤ m.rightMakerTokenFilledAmount ∧
    (settleMatchedOrders left right m takerAddress).residualAmount =
      m.rightMakerTokenFilledAmount - m.leftTakerTokenFilledAmount ∧
    (settleMatchedOrders left right m takerAddress).residualRecipient =
      right.makerAddress ∧
    (settleMatchedOrders left right m takerAddress).residualKeptByTaker = 0 := by
  rw [getMatchedFillAmounts_eq left right hL hR, if_pos hc] at hok
  exact ⟨(matchLeftConstrained_success left right L m hok).2.2.2.2, rfl, rfl, rfl⟩

/-- Left order of the C1 witness: maker gives 2 for 2. -/
def leftOrderW1 : Order :=
  { makerAddress := 101, makerTokenAddress := 30, takerTokenAddress := 40
    makerTokenAmount := 2, takerTokenAmount := 2
    makerFee := 0, takerFee := 0, feeRecipient := 0, salt := 3, expiration := 1000 }

/-- Right order of the C1 witness: maker gives 3 for 2, of which 1 is
filled. -/
def rightOrderW1 : Order :=
  { makerAddress := 201, makerTokenAddress := 40, takerTokenAddress := 30
    makerTokenAmount := 3, takerTokenAmount := 2
    makerFee := 0, takerFee := 0, feeRecipient := 0, salt := 4, expiration := 1000 }

/-- The fill amounts of the C1 witness match. -/
def amountsW1 : MatchedOrderFillAmounts :=
  { leftMakerTokenFilledAmount := 2, leftTakerTokenFilledAmount := 2
    rightMakerTokenFilledAmount := 4, rightTakerTokenFilledAmount := 3 }

/-- Witness for the amended C1 on a concrete left-constrained match. -/
theorem C1_left_constrained_residual_witness :
    amountsW1.leftTakerTokenFilledAmount ≤ amountsW1.rightMakerTokenFilledAmount ∧
    (settleMatchedOrders leftOrderW1 rightOrderW1 amountsW1 500).residualAmount =
      amountsW1.rightMakerTokenFilledAmount - amountsW1.leftTakerTokenFilledAmount ∧
    (settleMatchedOrders leftOrderW1 rightOrderW1 amountsW1 500).residualRecipient =
      rightOrderW1.makerAddress ∧
    (settleMatchedOrders leftOrderW1 rightOrderW1 amountsW1 500).residualKeptByTaker = 0 :=
  C1_left_constrained_residual leftOrderW1 rightOrderW1 0 1 2 1 amountsW1 500
    (by decide) (by decide) (by decide) rfl

/-! ## Claim C5 -/

/-- Left order of the C5 counterexample: maker gives `2 ^ 127` for
`2 ^ 128`. -/
def leftOrderC5 : Order :=
  { makerAddress := 102, makerTokenAddress := 11, takerTokenAddress := 21
    makerTokenAmount := 2 ^ 127, takerTokenAmount := 2 ^ 128
    makerFee := 0, takerFee := 0, feeRecipient := 0, salt := 5, expiration := 1000 }

/-- Right order of the C5 counterexample: maker gives `2 ^ 128` for
`2 ^ 128`, of which all but 2 is filled. -/
def rightOrderC5 : Order :=
  { makerAddress := 202, makerTokenAddress := 21, takerTokenAddress := 11
    makerTokenAmount := 2 ^ 128, takerTokenAmount := 2 ^ 128
    makerFee := 0, takerFee := 0, feeRecipient := 0, salt := 6, expiration := 1000 }

/-- The fill amounts produced on the C5 counterexample (right-constrained
path). -/
def amountsC5 : MatchedOrderFillAmounts :=
  { leftMakerTokenFilledAmount := 1, leftTakerTokenFilledAmount := 2
    rightMakerTokenFilledAmount := 2, rightTakerTokenFilledAmount := 2 }

/-- C5 (counterexample): with `leftRemaining = 2 ^ 128` and
`rightRemaining = 2`, the mathematical comparison
`right.makerAmount × rightRemaining < right.takerAmount × leftRemaining`
holds (`2 ^ 129 < 2 ^ 256`), yet `right.takerAmount × leftRemaining` wraps
to 0 modulo `2 ^ 256`, so the code selects the **right** order as the
constraint: `getMatchedFillAmounts` runs the right-constrained branch (which
succeeds) while the left-constrained branch would have reverted — the claim's
selection rule is falsified. -/
theorem C5_counterexample :
    safeSub leftOrderC5.takerTokenAmount 0 = some (2 ^ 128) ∧
    safeSub rightOrderC5.takerTokenAmount (2 ^ 128 - 2) = some 2 ∧
    rightOrderC5.makerTokenAmount * 2 <
      rightOrderC5.takerTokenAmount * 2 ^ 128 ∧
    leftIsConstraint rightOrderC5 (2 ^ 128) 2 = false ∧
    getMatchedFillAmounts leftOrderC5 rightOrderC5 0 (2 ^ 128 - 2) =
      matchRightConstrained leftOrderC5 rightOrderC5 (2 ^ 128) 2 ∧
    matchRightConstrained leftOrderC5 rightOrderC5 (2 ^ 128) 2 =
      .ok (Status.SUCCESS, amountsC5) ∧
    matchLeftConstrained leftOrderC5 rightOrderC5 (2 ^ 128) =
      .error Revert.assertFailed :=
  ⟨by decide, by decide, by decide, by decide, rfl, rfl, rfl⟩

/-- C5 (amended): `getMatchedFillAmounts` selects the left order as the
binding constraint if and only if
`(right.makerAmount × rightRemaining) mod 2 ^ 256 <
 (right.takerAmount × leftRemaining) mod 2 ^ 256` — the source multiplies
without SafeMath, so the products wrap; whenever neither product overflows
the 256-bit domain this coincides with the claimed mathematical
comparison. -/
theorem C5_constraint_selection (left right : Order) (lF rF L R : Nat)
    (hL : safeSub left.takerTokenAmount lF = some L)
    (hR : safeSub right.takerTokenAmount rF = some R) :
    getMatchedFillAmounts left right lF rF =
      (if leftIsConstraint right L R then matchLeftConstrained left right L
       else matchRightConstrained left right L R) ∧
    (leftIsConstraint right L R = true ↔
      (right.makerTokenAmount * R) % 2 ^ 256 <
        (right.takerTokenAmount * L) % 2 ^ 256) ∧
    (right.makerTokenAmount * R < 2 ^ 256 → right.takerTokenAmount * L < 2 ^ 256 →
      (leftIsConstraint right L R = true ↔
        right.makerTokenAmount * R < right.takerTokenAmount * L)) := by
  refine ⟨getMatchedFillAmounts_eq left right hL hR, ?_, ?_⟩
  · simp [leftIsConstraint, mul256, WORD]
  · intro h1 h2
    unfold leftIsConstraint mul256 WORD
    rw [Nat.mod_eq_of_lt h1, Nat.mod_eq_of_lt h2]
    simp

/-- Left order of the C5 witness. -/
def leftOrderW5 : Order :=
  { makerAddress := 103, makerTokenAddress := 12, takerTokenAddress := 22
    makerTokenAmount := 1, takerTokenAmount := 2
    makerFee := 0, takerFee := 0, feeRecipient := 0, salt := 7, expiration := 1000 }

/-- Right order of the C5 witness. -/
def rightOrderW5 : Order :=
  { makerAddress := 203, makerTokenAddress := 22, takerTokenAddress := 12
    makerTokenAmount := 1, takerTokenAmount := 3
    makerFee := 0, takerFee := 0, feeRecipient := 0, salt := 8, expiration := 1000 }

/-- Witness for the amended C5 at a concrete non-overflowing input. -/
theorem C5_constraint_selection_witness :
    getMatchedFillAmounts leftOrderW5 rightOrderW5 0 1 =
      (if leftIsConstraint rightOrderW5 2 2 then
        matchLeftConstrained leftOrderW5 rightOrderW5 2
       else matchRightConstrained leftOrderW5 rightOrderW5 2 2) ∧
    (leftIsConstraint rightOrderW5 2 2 = true ↔
      (rightOrderW5.makerTokenAmount * 2) % 2 ^ 256 <
        (rightOrderW5.takerTokenAmount * 2) % 2 ^ 256) ∧
    (rightOrderW5.makerTokenAmount * 2 < 2 ^ 256 →
      rightOrderW5.takerTokenAmount * 2 < 2 ^ 256 →
      (leftIsConstraint rightOrderW5 2 2 = true ↔
        rightOrderW5.makerTokenAmount * 2 < rightOrderW5.takerTokenAmount * 2)) :=
  C5_constraint_selection leftOrderW5 rightOrderW5 0 1 2 2 (by decide) (by decide)

/-! ## Claim C6 -/

/-- C6: whenever the left order is selected as the binding constraint and
the match succeeds, the left order was filled with `leftRemaining` as the
taker-fill request, the right fill request is the truncated proportional
amount `right.makerAmount × leftMakerTokenFilledAmount / right.takerAmount`,
and the right order was filled with exactly that derived amount. -/
theorem C6_left_branch_fills (left right : Order) (lF rF L R : Nat)
    (m : MatchedOrderFillAmounts)
    (hL : safeSub left.takerTokenAmount lF = some L)
    (hR : safeSub right.takerTokenAmount rF = some R)
    (hc : leftIsConstraint right L R = true)
    (hok : getMatchedFillAmounts left right lF rF = .ok (Status.SUCCESS, m)) :
    m.leftTakerTokenFilledAmount = L ∧
    m.leftMakerTokenFilledAmount =
      left.makerTokenAmount * L / left.takerTokenAmount ∧
    m.rightTakerTokenFilledAmount =
      right.makerTokenAmount * m.leftMakerTokenFilledAmount / right.takerTokenAmount ∧
    m.rightMakerTokenFilledAmount =
      right.makerTokenAmount * m.rightTakerTokenFilledAmount / right.takerTokenAmount := by
  rw [getMatchedFillAmounts_eq left right hL hR, if_pos hc] at hok
  have h := matchLeftConstrained_success left right L m hok
  exact ⟨h.1, h.2.1, h.2.2.1, h.2.2.2.1⟩

/-- Left order of the C6 witness. -/
def leftOrderW6 : Order :=
  { makerAddress := 104, makerTokenAddress := 13, takerTokenAddress := 23
    makerTokenAmount := 2, takerTokenAmount := 2
    makerFee := 0, takerFee := 0, feeRecipient := 0, salt := 9, expiration := 1000 }

/-- Right order of the C6 witness. -/
def rightOrderW6 : Order :=
  { makerAddress := 204, makerTokenAddress := 23, takerTokenAddress := 13
    makerTokenAmount := 2, takerTokenAmount := 2
    makerFee := 0, takerFee := 0, feeRecipient := 0, salt := 10, expiration := 1000 }

/-- The fill amounts of the C6 witness match. -/
def amountsW6 : MatchedOrderFillAmounts :=
  { leftMakerTokenFilledAmount := 2, leftTakerTokenFilledAmount := 2
    rightMakerTokenFilledAmount := 2, rightTakerTokenFilledAmount := 2 }

/-- Witness for C6 on a concrete left-constrained match. -/
theorem C6_left_branch_fills_witness :
    amountsW6.leftTakerTokenFilledAmount = 2 ∧
    amountsW6.leftMakerTokenFilledAmount =
      leftOrderW6.makerTokenAmount * 2 / leftOrderW6.takerTokenAmount ∧
    amountsW6.rightTakerTokenFilledAmount =
      rightOrderW6.makerTokenAmount * amountsW6.leftMakerTokenFilledAmount /
        rightOrderW6.takerTokenAmount ∧
    amountsW6.rightMakerTokenFilledAmount =
      rightOrderW6.makerTokenAmount * amountsW6.rightTakerTokenFilledAmount /
        rightOrderW6.takerTokenAmount :=
  C6_left_branch_fills leftOrderW6 rightOrderW6 0 1 2 1 amountsW6
    (by decide) (by decide) (by decide) rfl

/-! ## Claim C7 -/

/-- C7: whenever the right order is selected as the binding constraint and
the match succeeds, the right order was filled with `rightRemaining` as the
fill request and the left order was filled with exactly the right order's
maker-asset output, so the left taker amount filled equals the right maker
amount filled. -/
theorem C7_right_branch_fills (left right : Order) (lF rF L R : Nat)
    (m : MatchedOrderFillAmounts)
    (hL : safeSub left.takerTokenAmount lF = some L)
    (hR : safeSub right.takerTokenAmount rF = some R)
    (hc : leftIsConstraint right L R = false)
    (hok : getMatchedFillAmounts left right lF rF = .ok (Status.SUCCESS, m)) :
    m.rightTakerTokenFilledAmount = R ∧
    m.rightMakerTokenFilledAmount =
      right.makerTokenAmount * R / right.takerTokenAmount ∧
    m.leftTakerTokenFilledAmount = m.rightMakerTokenFilledAmount ∧
    m.leftMakerTokenFilledAmount =
      left.makerTokenAmount * m.rightMakerTokenFilledAmount / left.takerTokenAmount := by
  rw [getMatchedFillAmounts_eq left right hL hR, if_neg (by simp [hc])] at hok
  have h := matchRightConstrained_success left right L R m hok
  exact ⟨h.1, h.2.1, h.2.2.1, h.2.2.2.1⟩

/-- Left order of the C7 witness. -/
def leftOrderW7 : Order :=
  { makerAddress := 105, makerTokenAddress := 14, takerTokenAddress := 24
    makerTokenAmount := 1, takerTokenAmount := 1
    makerFee := 0, takerFee := 0, feeRecipient := 0, salt := 11, expiration := 1000 }

/-- Right order of the C7 witness. -/
def rightOrderW7 : Order :=
  { makerAddress := 205, makerTokenAddress := 24, takerTokenAddress := 14
    makerTokenAmount := 1, takerTokenAmount := 1
    makerFee := 0, takerFee := 0, feeRecipient := 0, salt := 12, expiration := 1000 }

/-- The fill amounts of the C7 witness match. -/
def amountsW7 : MatchedOrderFillAmounts :=
  { leftMakerTokenFilledAmount := 1, leftTakerTokenFilledAmount := 1
    rightMakerTokenFilledAmount := 1, rightTakerTokenFilledAmount := 1 }

/-- Witness for C7 on a concrete right-constrained match. -/
theorem C7_right_branch_fills_witness :
    amountsW7.rightTakerTokenFilledAmount = 1 ∧
    amountsW7.rightMakerTokenFilledAmount =
      rightOrderW7.makerTokenAmount * 1 / rightOrderW7.takerTokenAmount ∧
    amountsW7.leftTakerTokenFilledAmount = amountsW7.rightMakerTokenFilledAmount ∧
    amountsW7.leftMakerTokenFilledAmount =
      leftOrderW7.makerTokenAmount * amountsW7.rightMakerTokenFilledAmount /
        leftOrderW7.takerTokenAmount :=
  C7_right_branch_fills leftOrderW7 rightOrderW7 0 0 1 1 amountsW7
    (by decide) (by decide) (by decide) rfl

/-! ## Claim C8 -/

/-- Left order of the C8 failing input. -/
def leftOrderC8 : Order :=
  { makerAddress := 106, makerTokenAddress := 15, takerTokenAddress := 25
    makerTokenAmount := 2 ^ 127, takerTokenAmount := 2 ^ 128
    makerFee := 0, takerFee := 0, feeRecipient := 0, salt := 13, expiration := 1000 }

/-- Right order of the C8 failing input: all but 4 of its taker capacity is
filled. -/
def rightOrderC8 : Order :=
  { makerAddress := 206, makerTokenAddress := 25, takerTokenAddress := 15
    makerTokenAmount := 2 ^ 128, takerTokenAmount := 2 ^ 128
    makerFee := 0, takerFee := 0, feeRecipient := 0, salt := 14, expiration := 1000 }

/-- The fill amounts `getMatchedFillAmounts` produces on the C8 failing
input. -/
def amountsC8 : MatchedOrderFillAmounts :=
  { leftMakerTokenFilledAmount := 2, leftTakerTokenFilledAmount := 4
    rightMakerTokenFilledAmount := 4, rightTakerTokenFilledAmount := 4 }

/-- C8 (failing input): with `leftRemaining = 2 ^ 128` the source's
`right.takerTokenAmount * leftRemaining` multiplication mathematically
equals `2 ^ 256`, exceeding the 256-bit domain, yet the match is **not**
aborted: the product silently wraps to 0, the comparison on the wrapped
values selects the right-constrained branch, and a `SUCCESS` result is
produced — the code contradicts the claimed overflow policy (its own
`TODO: SafeMath` comments mark the unchecked multiplications). -/
theorem C8_overflow_wrapped :
    safeSub leftOrderC8.takerTokenAmount 0 = some (2 ^ 128) ∧
    WORD ≤ rightOrderC8.takerTokenAmount * 2 ^ 128 ∧
    getMatchedFillAmounts leftOrderC8 rightOrderC8 0 (2 ^ 128 - 4) =
      .ok (Status.SUCCESS, amountsC8) :=
  ⟨by decide, by decide, rfl⟩

/-! ## Claim C2 -/

/-- Left order of the C2 failing input.  Its token addresses are chosen to
coincide numerically with the right order's token *amounts* (which is what
the source's `require`s actually compare), while its asset pair is **not**
the inverse of the right order's. -/
def leftOrderC2 : Order :=
  { makerAddress := 11, makerTokenAddress := 5, takerTokenAddress := 5
    makerTokenAmount := 5, takerTokenAmount := 5
    makerFee := 0, takerFee := 0, feeRecipient := 0, salt := 1, expiration := 1000 }

/-- Right order of the C2 failing input: its token addresses (77, 88) match
neither of the left order's (5, 5). -/
def rightOrderC2 : Order :=
  { makerAddress := 22, makerTokenAddress := 77, takerTokenAddress := 88
    makerTokenAmount := 5, takerTokenAmount := 5
    makerFee := 0, takerFee := 0, feeRecipient := 0, salt := 2, expiration := 1000 }

/-- Environment of the C2 failing input: both orders Fillable, empty
ledger. -/
def envC2 : Env :=
  { hash := fun o => o.salt, sigValid := fun _ _ _ => true
    cancelled := fun _ => false, now := 0
    filled := fun _ => 0, sender := 7 }

/-- The fill amounts of the C2 failing input. -/
def amountsC2 : MatchedOrderFillAmounts :=
  { leftMakerTokenFilledAmount := 5, leftTakerTokenFilledAmount := 5
    rightMakerTokenFilledAmount := 5, rightTakerTokenFilledAmount := 5 }

/-- C2 (failing input): the asset pairs are not inverses
(`left.makerTokenAddress = 5 ≠ 88 = right.takerTokenAddress`), yet
`matchOrders` does **not** reject the pair: the source's `require`s compare
the left order's token addresses with the right order's token *amounts*
(which coincide at 5), so the match settles and both ledger updates are
issued. -/
theorem C2_bug_asset_mismatch_matched :
    leftOrderC2.makerTokenAddress ≠ rightOrderC2.takerTokenAddress ∧
    leftOrderC2.takerTokenAddress ≠ rightOrderC2.makerTokenAddress ∧
    matchOrders envC2 leftOrderC2 rightOrderC2 0 0 =
      .matched amountsC2 7
        { order := leftOrderC2, orderHash := 1
          makerTokenFilledAmount := 5, takerTokenFilledAmount := 5
          makerFeeAmountPaid := 0, takerFeeAmountPaid := 0 }
        { order := rightOrderC2, orderHash := 0
          makerTokenFilledAmount := 5, takerTokenFilledAmount := 5
          makerFeeAmountPaid := 0, takerFeeAmountPaid := 0 }
        (0, 0) :=
  ⟨by decide, by decide, rfl⟩

/-! ## Claim C3 -/

/-- Left order of the C3 failing input (a self-inverse token pair so the
source's address/amount comparison bug does not interfere). -/
def leftOrderC3 : Order :=
  { makerAddress := 31, makerTokenAddress := 5, takerTokenAddress := 5
    makerTokenAmount := 5, takerTokenAmount := 5
    makerFee := 0, takerFee := 0, feeRecipient := 0, salt := 1, expiration := 1000 }

/-- Right order of the C3 failing input. -/
def rightOrderC3 : Order :=
  { makerAddress := 32, makerTokenAddress := 5, takerTokenAddress := 5
    makerTokenAmount := 5, takerTokenAmount := 5
    makerFee := 0, takerFee := 0, feeRecipient := 0, salt := 2, expiration := 1000 }

/-- Environment of the C3 failing input: the right order's ledger entry
(hash 2) is at its full taker amount, so the right order resolves to
FullyFilled, not Fillable. -/
def envC3 : Env :=
  { hash := fun o => o.salt, sigValid := fun _ _ _ => true
    cancelled := fun _ => false, now := 0
    filled := fun h => if h = 2 then 5 else 0, sender := 8 }

/-- The fill amounts of the C3 failing input. -/
def amountsC3 : MatchedOrderFillAmounts :=
  { leftMakerTokenFilledAmount := 5, leftTakerTokenFilledAmount := 5
    rightMakerTokenFilledAmount := 5, rightTakerTokenFilledAmount := 5 }

/-- C3 (failing input): the right order resolves to `ORDER_FULLY_FILLED`,
not Fillable, yet `matchOrders` settles and issues both ledger updates:
its second status query — under the `// Get right status` comment — is
`getOrderStatus(left, leftSignature)`, so the right order's status is never
consulted. -/
theorem C3_bug_unfillable_right_matched :
    resolveStatus envC3 rightOrderC3 0 = Status.ORDER_FULLY_FILLED ∧
    resolveStatus envC3 rightOrderC3 0 ≠ Status.ORDER_FILLABLE ∧
    matchOrders envC3 leftOrderC3 rightOrderC3 0 0 =
      .matched amountsC3 8
        { order := leftOrderC3, orderHash := 1
          makerTokenFilledAmount := 5, takerTokenFilledAmount := 5
          makerFeeAmountPaid := 0, takerFeeAmountPaid := 0 }
        { order := rightOrderC3, orderHash := 0
          makerTokenFilledAmount := 5, takerTokenFilledAmount := 5
          makerFeeAmountPaid := 0, takerFeeAmountPaid := 0 }
        (0, 0) :=
  ⟨rfl, by decide, rfl⟩

/-! ## Claim C4 -/

/-- Left order of the C4 failing input: maker gives 5 for 3, of which 2 is
already filled. -/
def leftOrderC4 : Order :=
  { makerAddress := 41, makerTokenAddress := 3, takerTokenAddress := 2
    makerTokenAmount := 5, takerTokenAmount := 3
    makerFee := 0, takerFee := 0, feeRecipient := 0, salt := 1, expiration := 1000 }

/-- Right order of the C4 failing input: maker gives 2 for 3. -/
def rightOrderC4 : Order :=
  { makerAddress := 42, makerTokenAddress := 2, takerTokenAddress := 3
    makerTokenAmount := 2, takerTokenAmount := 3
    makerFee := 0, takerFee := 0, feeRecipient := 0, salt := 2, expiration := 1000 }

/-- Environment of the C4 failing input: the left order's ledger entry is
2. -/
def envC4 : Env :=
  { hash := fun o => o.salt, sigValid := fun _ _ _ => true
    cancelled := fun _ => false, now := 0
    filled := fun h => if h = 1 then 2 else 0, sender := 9 }

/-- The (partial) fill amounts the calculator returns on the C4 failing
input together with its non-success status: the left side was filled, the
derived right fill request truncated to zero and the right fill failed. -/
def amountsC4 : MatchedOrderFillAmounts :=
  { leftMakerTokenFilledAmount := 1, leftTakerTokenFilledAmount := 1
    rightMakerTokenFilledAmount := 0, rightTakerTokenFilledAmount := 0 }

/-- C4 (failing input): `getMatchedFillAmounts` reports the non-success
status `FILL_AMOUNT_ZERO`, yet `matchOrders` never inspects the returned
status: settlement is requested with the partial amounts and both ledger
updates are issued (the left one with a positive delta). -/
theorem C4_bug_status_ignored :
    getMatchedFillAmounts leftOrderC4 rightOrderC4 2 2 =
      .ok (Status.FILL_AMOUNT_ZERO, amountsC4) ∧
    Status.FILL_AMOUNT_ZERO ≠ Status.SUCCESS ∧
    matchOrders envC4 leftOrderC4 rightOrderC4 0 0 =
      .matched amountsC4 9
        { order := leftOrderC4, orderHash := 1
          makerTokenFilledAmount := 1, takerTokenFilledAmount := 1
          makerFeeAmountPaid := 0, takerFeeAmountPaid := 0 }
        { order := rightOrderC4, orderHash := 0
          makerTokenFilledAmount := 0, takerTokenFilledAmount := 0
          makerFeeAmountPaid := 0, takerFeeAmountPaid := 0 }
        (2, 2) :=
  ⟨rfl, by decide, rfl⟩

/-! ## Claim C9 -/

/-- C9: in every execution of `matchOrders` that reaches the ledger-update
stage, the left update is keyed by the left order's hash (written by the
second status query, which is again `getOrderStatus(left, leftSignature)`),
the right update is keyed by the default-initialized all-zero
`rightOrderHash` — never the right order's own hash — and both returned
filled amounts are the ledger value at the **left** order's hash; moreover
the result does not depend on the right signature at all, since it is never
used. -/
theorem C9_right_update_keyed_by_zero (env : Env) (left right : Order)
    (leftSignature rightSignature : Nat) (m : MatchedOrderFillAmounts)
    (takerAddress : Nat) (leftUpdate rightUpdate : LedgerUpdate) (ret : Nat × Nat)
    (h : matchOrders env left right leftSignature rightSignature =
      .matched m takerAddress leftUpdate rightUpdate ret) :
    leftUpdate.orderHash = env.hash left ∧
    leftUpdate.order = left ∧
    rightUpdate.orderHash = 0 ∧
    rightUpdate.order = right ∧
    ret.1 = env.filled (env.hash left) ∧
    ret.2 = env.filled (env.hash left) ∧
    ∀ sig2 : Nat, matchOrders env left right leftSignature sig2 =
      .matched m takerAddress leftUpdate rightUpdate ret := by
  have hmain : leftUpdate.orderHash = env.hash left ∧
      leftUpdate.order = left ∧
      rightUpdate.orderHash = 0 ∧
      rightUpdate.order = right ∧
      ret.1 = env.filled (env.hash left) ∧
      ret.2 = env.filled (env.hash left) := by
    simp only [matchOrders, getOrderStatus] at h
    split at h
    all_goals try split at h
    all_goals try split at h
    all_goals try split at h
    all_goals try split at h
    all_goals try split at h
    all_goals
      try exact MatchResult.noConfusion h
    all_goals
      simp only [MatchResult.matched.injEq] at h
      obtain ⟨h1, h2, h3, h4, h5⟩ := h
      subst h3
      subst h4
      subst h5
      exact ⟨rfl, rfl, rfl, rfl, rfl, rfl⟩
  exact ⟨hmain.1, hmain.2.1, hmain.2.2.1, hmain.2.2.2.1, hmain.2.2.2.2.1,
    hmain.2.2.2.2.2, fun _ => h⟩

/-- Left order of the C9 witness. -/
def leftOrderW9 : Order :=
  { makerAddress := 91, makerTokenAddress := 4, takerTokenAddress := 4
    makerTokenAmount := 4, takerTokenAmount := 4
    makerFee := 0, takerFee := 0, feeRecipient := 0, salt := 30, expiration := 1000 }

/-- Right order of the C9 witness: its own hash is 40, which is not the key
the right ledger update ends up using. -/
def rightOrderW9 : Order :=
  { makerAddress := 92, makerTokenAddress := 4, takerTokenAddress := 4
    makerTokenAmount := 4, takerTokenAmount := 4
    makerFee := 0, takerFee := 0, feeRecipient := 0, salt := 40, expiration := 1000 }

/-- Environment of the C9 witness. -/
def envW9 : Env :=
  { hash := fun o => o.salt, sigValid := fun _ _ _ => true
    cancelled := fun _ => false, now := 0
    filled := fun _ => 0, sender := 3 }

/-- The fill amounts of the C9 witness match. -/
def amountsW9 : MatchedOrderFillAmounts :=
  { leftMakerTokenFilledAmount := 4, leftTakerTokenFilledAmount := 4
    rightMakerTokenFilledAmount := 4, rightTakerTokenFilledAmount := 4 }

/-- The left ledger update of the C9 witness match. -/
def leftUpdateW9 : LedgerUpdate :=
  { order := leftOrderW9, orderHash := 30
    makerTokenFilledAmount := 4, takerTokenFilledAmount := 4
    makerFeeAmountPaid := 0, takerFeeAmountPaid := 0 }

/-- The right ledger update of the C9 witness match: keyed by 0 although the
right order's hash is 40. -/
def rightUpdateW9 : LedgerUpdate :=
  { order := rightOrderW9, orderHash := 0
    makerTokenFilledAmount := 4, takerTokenFilledAmount := 4
    makerFeeAmountPaid := 0, takerFeeAmountPaid := 0 }

/-- Witness for C9 on a concrete matched execution. -/
theorem C9_right_update_keyed_by_zero_witness :
    leftUpdateW9.orderHash = envW9.hash leftOrderW9 ∧
    leftUpdateW9.order = leftOrderW9 ∧
    rightUpdateW9.orderHash = 0 ∧
    rightUpdateW9.order = rightOrderW9 ∧
    (0, 0).1 = envW9.filled (envW9.hash leftOrderW9) ∧
    (0, 0).2 = envW9.filled (envW9.hash leftOrderW9) ∧
    ∀ sig2 : Nat, matchOrders envW9 leftOrderW9 rightOrderW9 0 sig2 =
      .matched amountsW9 3 leftUpdateW9 rightUpdateW9 (0, 0) :=
  C9_right_update_keyed_by_zero envW9 leftOrderW9 rightOrderW9 0 5 amountsW9 3
    leftUpdateW9 rightUpdateW9 (0, 0) rfl

/-! ## Claim C10 -/

/-- C10: `signOrderHashAsync` returns a signature only if its `v` parameter
is 27 or 28 and it passes `isValidSignature` for the order hash and signer
under the v-r-s or r-s-v parsing of the raw signature; it throws
`InvalidSignature` exactly when neither parsing is accepted. -/
theorem C10_sign_order_hash
    (parseSignatureHexAsVRS parseSignatureHexAsRSV : Nat → ECSignature)
    (isValidSignature : Nat → ECSignature → Nat → Bool)
    (orderHash signerAddress rawSignature : Nat) :
    (∀ sig : ECSignature,
      signOrderHashAsync parseSignatureHexAsVRS parseSignatureHexAsRSV isValidSignature
          orderHash signerAddress rawSignature = .ok sig →
        (sig.v = 27 ∨ sig.v = 28) ∧
        isValidSignature orderHash sig signerAddress = true ∧
        (sig = parseSignatureHexAsVRS rawSignature ∨
          sig = parseSignatureHexAsRSV rawSignature)) ∧
    (signOrderHashAsync parseSignatureHexAsVRS parseSignatureHexAsRSV isValidSignature
        orderHash signerAddress rawSignature = .error ZeroExError.InvalidSignature ↔
      ¬ (((parseSignatureHexAsVRS rawSignature).v = 27 ∨
            (parseSignatureHexAsVRS rawSignature).v = 28) ∧
          isValidSignature orderHash (parseSignatureHexAsVRS rawSignature)
            signerAddress = true) ∧
      ¬ (((parseSignatureHexAsRSV rawSignature).v = 27 ∨
            (parseSignatureHexAsRSV rawSignature).v = 28) ∧
          isValidSignature orderHash (parseSignatureHexAsRSV rawSignature)
            signerAddress = true)) := by
  have hv : ∀ v : Nat, validVParamValues.contains v = true ↔ (v = 27 ∨ v = 28) := by
    intro v
    simp [validVParamValues]
  simp only [signOrderHashAsync]
  by_cases h1 : (validVParamValues.contains (parseSignatureHexAsVRS rawSignature).v &&
      isValidSignature orderHash (parseSignatureHexAsVRS rawSignature) signerAddress) = true
  · rw [if_pos h1]
    rw [Bool.and_eq_true] at h1
    constructor
    · intro sig hs
      obtain rfl : parseSignatureHexAsVRS rawSignature = sig := Except.ok.inj hs
      exact ⟨(hv _).mp h1.1, h1.2, Or.inl rfl⟩
    · constructor
      · intro hs
        exact absurd hs (by simp)
      · intro hcon
        exact absurd ⟨(hv _).mp h1.1, h1.2⟩ hcon.1
  · rw [if_neg h1]
    by_cases h2 : (validVParamValues.contains (parseSignatureHexAsRSV rawSignature).v &&
        isValidSignature orderHash (parseSignatureHexAsRSV rawSignature) signerAddress) = true
    · rw [if_pos h2]
      rw [Bool.and_eq_true] at h2
      constructor
      · intro sig hs
        obtain rfl : parseSignatureHexAsRSV rawSignature = sig := Except.ok.inj hs
        exact ⟨(hv _).mp h2.1, h2.2, Or.inr rfl⟩
      · constructor
        · intro hs
          exact absurd hs (by simp)
        · intro hcon
          exact absurd ⟨(hv _).mp h2.1, h2.2⟩ hcon.2
    · rw [if_neg h2]
      refine ⟨fun sig hs => absurd hs (by simp), ?_⟩
      refine ⟨fun _ => ⟨?_, ?_⟩, fun _ => rfl⟩
      · intro hcon
        refine h1 ?_
        rw [Bool.and_eq_true]
        exact ⟨(hv _).mpr hcon.1, hcon.2⟩
      · intro hcon
        refine h2 ?_
        rw [Bool.and_eq_true]
        exact ⟨(hv _).mpr hcon.1, hcon.2⟩

/-- The v-r-s parser of the C10 witness. -/
def parseVRSW10 : Nat → ECSignature := fun n => { v := 27, r := n, s := 1 }

/-- The r-s-v parser of the C10 witness. -/
def parseRSVW10 : Nat → ECSignature := fun n => { v := 28, r := n, s := 2 }

/-- The signature validator of the C10 witness: accepts exactly `v = 27`. -/
def isValidW10 : Nat → ECSignature → Nat → Bool := fun _ sig _ => sig.v == 27

/-- Witness for C10 on a concrete accepted v-r-s signature. -/
theorem C10_sign_order_hash_witness :
    ((parseVRSW10 9).v = 27 ∨ (parseVRSW10 9).v = 28) ∧
    isValidW10 5 (parseVRSW10 9) 7 = true ∧
    (parseVRSW10 9 = parseVRSW10 9 ∨ parseVRSW10 9 = parseRSVW10 9) :=
  (C10_sign_order_hash parseVRSW10 parseRSVW10 isValidW10 5 7 9).1 (parseVRSW10 9) rfl

end ZeroExMatch
